import Mathlib

/-!
Verification development for the QR composer utility of the backendv2
repository (src/utils/qrWithLogo.js).  The JavaScript functions
`generateQRWithLogo`, `generateQRWithMonogram` and `generateCustomQR` are
shallowly embedded as pure Lean functions.  External capabilities (the QR
symbol encoder of the `qrcode` package, HTTP fetch, the filesystem, and the
`sharp` image operations) are supplied through an explicit environment of
oracles, and every externally visible action is recorded in an effect trace,
so that claims about which side effects occur on which branch can be stated
and proved.
-/

/-- Error values thrown by the composer or by one of its oracles.  The source
throws plain `Error` objects; the constructors here mirror the distinct throw
sites (`Failed to fetch logo from URL: ... (status N)` becomes
`logoFetchError`, `Logo file not found: ...` becomes `logoNotFoundError`),
plus opaque errors raised by the external steps themselves. -/
inductive Err where
  | encodingError (msg : String)
  | fetchFailed (msg : String)
  | logoFetchError (url : String) (status : Nat)
  | logoNotFoundError (path : String)
  | imageError (msg : String)
deriving DecidableEq, Repr

/-- An RGBA color object as passed to sharp (`{ r, g, b, alpha }`). -/
structure RGBA where
  r : Nat
  g : Nat
  b : Nat
  alpha : Nat
deriving DecidableEq, Repr

/-- The `color` option object `{ dark, light }` of the qrcode package. -/
structure ColorPair where
  dark : String
  light : String
deriving DecidableEq, Repr

/-- Caller-supplied QR options (`options` parameter); each field is `none`
when the corresponding property is absent (JS `undefined`). -/
structure QROptions where
  width : Option Nat
  margin : Option Nat
  color : Option ColorPair
  errorCorrectionLevel : Option String
deriving DecidableEq, Repr

/-- QR options after default substitution. -/
structure ResolvedQROptions where
  width : Nat
  margin : Nat
  color : ColorPair
  errorCorrectionLevel : String
deriving DecidableEq, Repr

/-- The single `centerOptions` / `logoOptions` / `monogramOptions` object.
The JS call sites pass one object carrying whichever properties apply; every
field is optional. -/
structure CenterOptions where
  logoPath : Option String
  logoSize : Option Nat
  logoMargin : Option Nat
  logoBackground : Option String
  logoBorderRadius : Option Nat
  monogram : Option String
  fontSize : Option Nat
  fontFamily : Option String
  textColor : Option String
  backgroundColor : Option String
  borderRadius : Option Nat
  padding : Option Nat
deriving DecidableEq, Repr

/-- Logo options after default substitution (source lines 23–28). -/
structure ResolvedLogoOptions where
  logoSize : Nat
  logoMargin : Nat
  logoBackground : String
  logoBorderRadius : Nat
deriving DecidableEq, Repr

/-- Monogram options after default substitution (source lines 140–147). -/
structure ResolvedMonogramOptions where
  fontSize : Nat
  fontFamily : String
  textColor : String
  backgroundColor : String
  borderRadius : Nat
  padding : Nat
deriving DecidableEq, Repr

/-- Destructuring defaults of `options` in `generateQRWithLogo` and
`generateQRWithMonogram` (source lines 16–21 and 133–138): a default applies
exactly when the property is absent. -/
def resolveQROptions (o : QROptions) : ResolvedQROptions :=
  ResolvedQROptions.mk
    (o.width.getD 300)
    (o.margin.getD 2)
    (o.color.getD (ColorPair.mk ("#000000") ("#FFFFFF")))
    (o.errorCorrectionLevel.getD ("M"))

/-- JS `x || d` for an optional number: `undefined` and `0` are falsy. -/
def natOrFalsy (o : Option Nat) (d : Nat) : Nat :=
  match o with
  | none => d
  | some 0 => d
  | some n => n

/-- JS `x || d` for an optional string: `undefined` and `""` are falsy. -/
def strOrFalsy (o : Option String) (d : String) : String :=
  match o with
  | none => d
  | some s => if s = "" then d else s

/-- Option resolution of the `none`/default branch of `generateCustomQR`
(source lines 220–226), which uses `||` rather than destructuring defaults. -/
def resolveNoneQROptions (o : QROptions) : ResolvedQROptions :=
  ResolvedQROptions.mk
    (natOrFalsy o.width 300)
    (natOrFalsy o.margin 2)
    (o.color.getD (ColorPair.mk ("#000000") ("#FFFFFF")))
    (strOrFalsy o.errorCorrectionLevel ("M"))

/-- Destructuring defaults of `logoOptions` (source lines 23–28).
`Math.floor(width * 0.2)` and `Math.floor(width * 0.05)` are embedded as the
natural-number divisions `width * 20 / 100` and `width * 5 / 100`; for an
integer `width` in the representable range the IEEE-double products
`width * 0.2` and `width * 0.05` round to within less than one half unit of
the exact rational value and never cross an integer boundary, so the floors
agree with the exact rational floors. -/
def resolveLogoOptions (width : Nat) (o : CenterOptions) : ResolvedLogoOptions :=
  ResolvedLogoOptions.mk
    (o.logoSize.getD (width * 20 / 100))
    (o.logoMargin.getD (width * 5 / 100))
    (o.logoBackground.getD ("#FFFFFF"))
    (o.logoBorderRadius.getD 8)

/-- Destructuring defaults of `monogramOptions` (source lines 140–147),
with `Math.floor(width * 0.15)` embedded as `width * 15 / 100` (same
remark as in `resolveLogoOptions` on the exactness of the floors). -/
def resolveMonogramOptions (width : Nat) (o : CenterOptions) : ResolvedMonogramOptions :=
  ResolvedMonogramOptions.mk
    (o.fontSize.getD (width * 15 / 100))
    (o.fontFamily.getD ("Arial, sans-serif"))
    (o.textColor.getD ("#000000"))
    (o.backgroundColor.getD ("#FFFFFF"))
    (o.borderRadius.getD 8)
    (o.padding.getD (width * 5 / 100))

/-- A fetch response: HTTP status and body bytes (`response.ok` is
`200 ≤ status ≤ 299`). -/
structure FetchResponse (β : Type) where
  status : Nat
  body : β
deriving DecidableEq, Repr

/-- The external capabilities consumed by the composer, over an abstract
image-buffer type `β`:
the QR symbol encoder (`QRCode.toBuffer`), HTTP `fetch`,
`path.join(__dirname, '..', ·)`, `fs.existsSync`, `fs.readFileSync`, and the
three sharp pipelines used by the source: contain-fit resize with a
background (lines 74–80), canvas creation with a background color plus one
composite at an offset (lines 83–97), overlay of one buffer on another at an
offset (lines 108–115 and 188–195), and SVG rasterization (lines 183–185). -/
structure Env (β : Type) where
  encodeQR : String → ResolvedQROptions → Except Err β
  fetch : String → Except Err (FetchResponse β)
  joinDirname : String → String
  fileExists : String → Bool
  readFile : String → β
  resize : β → Nat → Nat → RGBA → Except Err β
  createCanvas : Nat → Nat → RGBA → β → Nat → Nat → Except Err β
  overlay : β → β → Int → Int → Except Err β
  rasterizeSVG : String → Except Err β

/-- Externally visible actions, recorded in the order the source performs
them. -/
inductive Eff where
  | encode (url : String) (o : ResolvedQROptions)
  | netFetch (url : String)
  | fsCheck (path : String)
  | fsRead (path : String)
  | resize (w h : Nat) (bg : RGBA)
  | createCanvas (w h : Nat) (bg : RGBA) (top left : Nat)
  | rasterize (svg : String)
  | overlay (top left : Int)
deriving DecidableEq, Repr

/-- The test `/^https?:\/\//i.test(logoPath)` (source line 49): a
case-insensitive check that the string starts with `http://` or
`https://`. -/
def isRemoteUrl (s : String) : Bool :=
  List.isPrefixOf (("http://").data) (s.data.map Char.toLower) ||
  List.isPrefixOf (("https://").data) (s.data.map Char.toLower)

/-- Source lines 58–61: a path beginning with `/uploads/logos/` is remapped
through `path.join(__dirname, '..', logoPath)` (abstracted as the
environment's `joinDirname`); any other string is used as-is. -/
def actualLogoPath (join : String → String) (logoPath : String) : String :=
  if List.isPrefixOf (("/uploads/logos/").data) logoPath.data then join logoPath
  else logoPath

/-- The `response.ok` predicate of the fetch API. -/
def responseOk (status : Nat) : Bool :=
  decide (200 ≤ status) && decide (status ≤ 299)

/-- Source lines 46–71: resolve the logo source to raw bytes.  A remote
`http(s)` source is fetched (throwing on a non-success status); anything
else is treated as a local file path (throwing when the file is absent).
The inner `catch (e) { ...; throw e; }` rethrows unchanged and is therefore
the identity on outcomes.  Returns the outcome together with the effect
trace of this step. -/
def resolveLogoSource (env : Env β) (logoPath : String) :
    Except Err β × List Eff :=
  if isRemoteUrl logoPath then
    match env.fetch logoPath with
    | Except.error e => (Except.error e, [Eff.netFetch logoPath])
    | Except.ok resp =>
      if responseOk resp.status then
        (Except.ok resp.body, [Eff.netFetch logoPath])
      else
        (Except.error (Err.logoFetchError logoPath resp.status), [Eff.netFetch logoPath])
  else
    let ap := actualLogoPath env.joinDirname logoPath
    if env.fileExists ap then
      (Except.ok (env.readFile ap), [Eff.fsCheck ap, Eff.fsRead ap])
    else
      (Except.error (Err.logoNotFoundError logoPath), [Eff.fsCheck ap])

/-- Source lines 99–105: the top-left placement of the logo canvas inside
the base raster, `Math.floor((qrSize - logoWidth) / 2)` on each axis,
computed separately for x and y exactly as in the source (`Int.fdiv` is
floor division, matching `Math.floor` of the real quotient). -/
def logoOverlayPos (width logoSize logoMargin : Nat) : Int × Int :=
  let qrSize : Int := (width : Int)
  let logoWidth : Int := (logoSize : Int) + (logoMargin : Int) * 2
  let logoHeight : Int := (logoSize : Int) + (logoMargin : Int) * 2
  (Int.fdiv (qrSize - logoWidth) 2, Int.fdiv (qrSize - logoHeight) 2)

/-- Source lines 160–162: the top-left placement of the monogram container,
`Math.floor((width - containerSize) / 2)` on each axis, computed separately
for x and y exactly as in the source. -/
def monogramContainerPos (width containerSize : Nat) : Int × Int :=
  (Int.fdiv ((width : Int) - (containerSize : Int)) 2,
   Int.fdiv ((width : Int) - (containerSize : Int)) 2)

/-- One global single-character replacement, the embedding of
`String.prototype.replace` with a single-character global regex. -/
def replaceChar (c : Char) (rep : List Char) : List Char → List Char
  | [] => []
  | d :: ds => if d = c then rep ++ replaceChar c rep ds else d :: replaceChar c rep ds

/-- The characters of `&amp;`. -/
def ampEntity : List Char := ['&', 'a', 'm', 'p', ';']

/-- The characters of `&lt;`. -/
def ltEntity : List Char := ['&', 'l', 't', ';']

/-- The characters of `&gt;`. -/
def gtEntity : List Char := ['&', 'g', 't', ';']

/-- Source line 178:
`monogram.replace(/&/g, '&amp;').replace(/</g, '&lt;').replace(/>/g, '&gt;')`,
the three global replacements applied in source order (`&` first). -/
def escapeXmlChars (s : List Char) : List Char :=
  replaceChar '>' gtEntity (replaceChar '<' ltEntity (replaceChar '&' ampEntity s))

/-- String-level wrapper of `escapeXmlChars`. -/
def escapeXml (s : String) : String :=
  String.mk (escapeXmlChars s.data)

/-- Source lines 165–177: the markup of the SVG template that precedes the
embedded monogram text. -/
def svgTextPre (containerSize : Nat) (mo : ResolvedMonogramOptions) : String :=
  let cs := Nat.repr containerSize
  let fsz := Nat.repr mo.fontSize
  let br := Nat.repr mo.borderRadius
  ("<?xml version=\"1.0\" encoding=\"UTF-8\"?>\n<svg width=\"") ++ cs ++
  ("\" height=\"") ++ cs ++
  ("\" xmlns=\"http://www.w3.org/2000/svg\">\n  <rect width=\"") ++ cs ++
  ("\" height=\"") ++ cs ++
  ("\" \n        fill=\"") ++ mo.backgroundColor ++
  ("\" \n        rx=\"") ++ br ++
  ("\" \n        ry=\"") ++ br ++
  ("\"/>\n  <text x=\"50%\" y=\"50%\" \n        text-anchor=\"middle\" \n        dominant-baseline=\"middle\" \n        font-family=\"") ++ mo.fontFamily ++
  ("\" \n        font-size=\"") ++ fsz ++
  ("\" \n        font-weight=\"bold\" \n        fill=\"") ++ mo.textColor ++
  ("\">\n    ")

/-- Source lines 179–180: the markup of the SVG template that follows the
embedded monogram text. -/
def svgTextPost : String := ("\n  </text>\n</svg>")

/-- Source lines 165–180: the SVG markup for the monogram container, with
the escaped monogram text embedded in the `<text>` element. -/
def buildMonogramSVG (containerSize : Nat) (mo : ResolvedMonogramOptions)
    (monogram : String) : String :=
  svgTextPre containerSize mo ++ escapeXml monogram ++ svgTextPost

/-- Source lines 15–122, `generateQRWithLogo`: encode the QR symbol; when
`logoPath` is falsy (`null`/`undefined`/`""`) return the plain raster;
otherwise resolve the logo source, contain-fit resize it to
`logoSize × logoSize` over a transparent white background, composite it onto
a freshly created `(logoSize + 2·logoMargin)`-sided canvas whose background
is the literal `{ r: 255, g: 255, b: 255, alpha: 1 }` at offset
`(logoMargin, logoMargin)`, and overlay that canvas on the raster at the
centered position.  The outer `catch (error) { ...; throw error; }` rethrows
unchanged.  Returns the outcome and the effect trace. -/
def generateQRWithLogo (env : Env β) (url : String) (options : QROptions)
    (logoPath : Option String) (logoOptions : CenterOptions) :
    Except Err β × List Eff :=
  let ropts := resolveQROptions options
  let lopts := resolveLogoOptions ropts.width logoOptions
  let t0 : List Eff := [Eff.encode url ropts]
  match env.encodeQR url ropts with
  | Except.error e => (Except.error e, t0)
  | Except.ok qrCodeBuffer =>
    match logoPath with
    | none => (Except.ok qrCodeBuffer, t0)
    | some lp =>
      if lp = "" then (Except.ok qrCodeBuffer, t0)
      else
        match resolveLogoSource env lp with
        | (Except.error e, tr) => (Except.error e, t0 ++ tr)
        | (Except.ok logoSourceBuffer, tr) =>
          let tbg : RGBA := RGBA.mk 255 255 255 0
          let t1 := t0 ++ tr ++ [Eff.resize lopts.logoSize lopts.logoSize tbg]
          match env.resize logoSourceBuffer lopts.logoSize lopts.logoSize tbg with
          | Except.error e => (Except.error e, t1)
          | Except.ok logoBuffer =>
            let side := lopts.logoSize + lopts.logoMargin * 2
            let wbg : RGBA := RGBA.mk 255 255 255 1
            let t2 := t1 ++ [Eff.createCanvas side side wbg lopts.logoMargin lopts.logoMargin]
            match env.createCanvas side side wbg logoBuffer lopts.logoMargin lopts.logoMargin with
            | Except.error e => (Except.error e, t2)
            | Except.ok logoWithBackground =>
              let pos := logoOverlayPos ropts.width lopts.logoSize lopts.logoMargin
              let t3 := t2 ++ [Eff.overlay pos.2 pos.1]
              match env.overlay qrCodeBuffer logoWithBackground pos.2 pos.1 with
              | Except.error e => (Except.error e, t3)
              | Except.ok finalQRCode => (Except.ok finalQRCode, t3)

/-- Source lines 132–202, `generateQRWithMonogram`: encode the QR symbol,
build the monogram SVG (default text `M&E` when the parameter is absent),
rasterize it, and overlay it at the centered position.  The outer catch
rethrows unchanged.  Returns the outcome and the effect trace. -/
def generateQRWithMonogram (env : Env β) (url : String) (options : QROptions)
    (monogram : Option String) (monogramOptions : CenterOptions) :
    Except Err β × List Eff :=
  let ropts := resolveQROptions options
  let mopts := resolveMonogramOptions ropts.width monogramOptions
  let m := monogram.getD ("M&E")
  let t0 : List Eff := [Eff.encode url ropts]
  match env.encodeQR url ropts with
  | Except.error e => (Except.error e, t0)
  | Except.ok qrCodeBuffer =>
    let containerSize := mopts.fontSize + mopts.padding * 2
    let pos := monogramContainerPos ropts.width containerSize
    let svgText := buildMonogramSVG containerSize mopts m
    let t1 := t0 ++ [Eff.rasterize svgText]
    match env.rasterizeSVG svgText with
    | Except.error e => (Except.error e, t1)
    | Except.ok monogramBuffer =>
      let t2 := t1 ++ [Eff.overlay pos.2 pos.1]
      match env.overlay qrCodeBuffer monogramBuffer pos.2 pos.1 with
      | Except.error e => (Except.error e, t2)
      | Except.ok finalQRCode => (Except.ok finalQRCode, t2)

/-- Source lines 212–228, `generateCustomQR`: string dispatch on
`centerType`; `'logo'` and `'monogram'` delegate (passing
`centerOptions.logoPath` resp. `centerOptions.monogram` plus the whole
options object), every other value — `'none'` included — falls through to
the default branch, which encodes directly with `||`-style defaults. -/
def generateCustomQR (env : Env β) (url : String) (options : QROptions)
    (centerType : String) (centerOptions : CenterOptions) :
    Except Err β × List Eff :=
  match centerType with
  | "logo" => generateQRWithLogo env url options centerOptions.logoPath centerOptions
  | "monogram" => generateQRWithMonogram env url options centerOptions.monogram centerOptions
  | _ =>
    let ropts := resolveNoneQROptions options
    (env.encodeQR url ropts, [Eff.encode url ropts])

/-- Modelled from the spec: the underlying QR symbol encoder (the `qrcode`
npm package, external to this repository).  Per spec §6 it is "A QR symbol
encoder producing raster bytes from text + error-correction level + size +
margin + two colors", and per the glossary a QR symbol is "a square matrix
barcode encoding text"; the raster is modelled as carrying the encoded
payload together with the rendering options. -/
structure QRRaster where
  payload : String
  opts : ResolvedQROptions
deriving DecidableEq, Repr

/-- Modelled from the spec: a standard QR reader, which decodes a scannable
QR raster back to the text it encodes (spec §8: "decoding the returned PNG
through a standard QR reader yields exactly the original URL string"). -/
def readQRPayload (r : QRRaster) : String := r.payload

/-- Modelled from the spec: the encoder succeeds on a valid payload and
produces the raster of that payload at those options. -/
def specEncodeQR (url : String) (o : ResolvedQROptions) : Except Err QRRaster :=
  Except.ok (QRRaster.mk url o)

/-- An environment instantiated with the spec-modelled encoder; the other
capabilities are irrelevant for the `none` path and are given trivial
values. -/
def specQREnv : Env QRRaster :=
  Env.mk specEncodeQR
    (fun u => Except.error (Err.fetchFailed u))
    (fun p => p)
    (fun _ => false)
    (fun _ => QRRaster.mk ("") (ResolvedQROptions.mk 0 0 (ColorPair.mk ("") ("")) ("")))
    (fun _ _ _ _ => Except.error (Err.imageError ("resize")))
    (fun _ _ _ _ _ _ => Except.error (Err.imageError ("canvas")))
    (fun _ _ _ _ => Except.error (Err.imageError ("overlay")))
    (fun _ => Except.error (Err.imageError ("svg")))

/-- Single-pass character escaping: the per-character effect that the three
sequential replacements of source line 178 are claimed to implement. -/
def escChar (c : Char) : List Char :=
  if c = '&' then ampEntity
  else if c = '<' then ltEntity
  else if c = '>' then gtEntity
  else [c]

/-- Single-pass escaping of a whole character list. -/
def escAll : List Char → List Char
  | [] => []
  | c :: cs => escChar c ++ escAll cs

/-- XML entity decoding for the three entities in play: what an XML parser
renders the embedded text as.  Each occurrence of `&amp;`, `&lt;`, `&gt;` is
decoded to its character; everything else is literal. -/
def unescapeXml : List Char → List Char
  | '&' :: 'a' :: 'm' :: 'p' :: ';' :: rest => '&' :: unescapeXml rest
  | '&' :: 'l' :: 't' :: ';' :: rest => '<' :: unescapeXml rest
  | '&' :: 'g' :: 't' :: ';' :: rest => '>' :: unescapeXml rest
  | c :: rest => c :: unescapeXml rest
  | [] => []

/-- Value of one hexadecimal digit character. -/
def hexDigitVal (c : Char) : Nat :=
  if decide ('0' ≤ c) && decide (c ≤ '9') then c.toNat - 48
  else if decide ('a' ≤ c) && decide (c ≤ 'f') then c.toNat - 87
  else if decide ('A' ≤ c) && decide (c ≤ 'F') then c.toNat - 55
  else 0

/-- Modelled from the spec: the color denoted by a `#RRGGBB` hex color
string (spec §3: `backgroundColor: hex (default white)`), as an opaque RGBA
value.  Used only to compare the caller-supplied color against the color the
code actually uses. -/
def specHexColor (s : String) : RGBA :=
  match s.data with
  | '#' :: r1 :: r2 :: g1 :: g2 :: b1 :: b2 :: [] =>
    RGBA.mk (16 * hexDigitVal r1 + hexDigitVal r2)
      (16 * hexDigitVal g1 + hexDigitVal g2)
      (16 * hexDigitVal b1 + hexDigitVal b2) 1
  | _ => RGBA.mk 0 0 0 1

/-- A QR options object with every property absent. -/
def qrOptsEmpty : QROptions := QROptions.mk none none none none

/-- A center options object with every property absent. -/
def coEmpty : CenterOptions :=
  CenterOptions.mk none none none none none none none none none none none none

/-- A center options object requesting a red logo matte background. -/
def coRedBg : CenterOptions :=
  CenterOptions.mk none none none (some ("#FF0000")) none none none none none none none none

/-- A fully successful concrete environment over `List Nat` buffers, used to
instantiate universally quantified theorems at a concrete input. -/
def env0 : Env (List Nat) :=
  Env.mk (fun _ _ => Except.ok [0])
    (fun _ => Except.ok (FetchResponse.mk 200 [1]))
    (fun p => p)
    (fun _ => true)
    (fun _ => [2])
    (fun _ _ _ _ => Except.ok [3])
    (fun _ _ _ _ _ _ => Except.ok [4])
    (fun _ _ _ _ => Except.ok [5])
    (fun _ => Except.ok [6])

/-- A concrete environment whose fetch returns HTTP 404 and whose
filesystem has no files. -/
def envFail : Env (List Nat) :=
  Env.mk (fun _ _ => Except.ok [0])
    (fun _ => Except.ok (FetchResponse.mk 404 [1]))
    (fun p => p)
    (fun _ => false)
    (fun _ => [2])
    (fun _ _ _ _ => Except.ok [3])
    (fun _ _ _ _ _ _ => Except.ok [4])
    (fun _ _ _ _ => Except.ok [5])
    (fun _ => Except.ok [6])

/-- Full-success run of the logo composer: the encoder and, when a logo is
present, source resolution, resize, matte-canvas creation and overlay all
returned a buffer, the last one being the run result. -/
def logoStepsOk (env : Env β) (url : String) (opts : QROptions)
    (lp : Option String) (lopts : CenterOptions) (b : β) : Prop :=
  ∃ qr, env.encodeQR url (resolveQROptions opts) = Except.ok qr ∧
    (((lp = none ∨ lp = some ("")) ∧ b = qr) ∨
     (∃ p src rs matte, lp = some p ∧ ¬ p = "" ∧
       (resolveLogoSource env p).1 = Except.ok src ∧
       env.resize src (resolveLogoOptions (resolveQROptions opts).width lopts).logoSize (resolveLogoOptions (resolveQROptions opts).width lopts).logoSize (RGBA.mk 255 255 255 0) = Except.ok rs ∧
       env.createCanvas ((resolveLogoOptions (resolveQROptions opts).width lopts).logoSize + (resolveLogoOptions (resolveQROptions opts).width lopts).logoMargin * 2) ((resolveLogoOptions (resolveQROptions opts).width lopts).logoSize + (resolveLogoOptions (resolveQROptions opts).width lopts).logoMargin * 2) (RGBA.mk 255 255 255 1) rs (resolveLogoOptions (resolveQROptions opts).width lopts).logoMargin (resolveLogoOptions (resolveQROptions opts).width lopts).logoMargin = Except.ok matte ∧
       env.overlay qr matte (logoOverlayPos (resolveQROptions opts).width (resolveLogoOptions (resolveQROptions opts).width lopts).logoSize (resolveLogoOptions (resolveQROptions opts).width lopts).logoMargin).2 (logoOverlayPos (resolveQROptions opts).width (resolveLogoOptions (resolveQROptions opts).width lopts).logoSize (resolveLogoOptions (resolveQROptions opts).width lopts).logoMargin).1 = Except.ok b))

/-- Failing run of the logo composer: some step in source order failed with
exactly this error, every earlier step having succeeded. -/
def logoStepErr (env : Env β) (url : String) (opts : QROptions)
    (lp : Option String) (lopts : CenterOptions) (e : Err) : Prop :=
  env.encodeQR url (resolveQROptions opts) = Except.error e ∨
  (∃ qr p, env.encodeQR url (resolveQROptions opts) = Except.ok qr ∧ lp = some p ∧ ¬ p = "" ∧
    ((resolveLogoSource env p).1 = Except.error e ∨
     (∃ src, (resolveLogoSource env p).1 = Except.ok src ∧
       (env.resize src (resolveLogoOptions (resolveQROptions opts).width lopts).logoSize (resolveLogoOptions (resolveQROptions opts).width lopts).logoSize (RGBA.mk 255 255 255 0) = Except.error e ∨
        (∃ rs, env.resize src (resolveLogoOptions (resolveQROptions opts).width lopts).logoSize (resolveLogoOptions (resolveQROptions opts).width lopts).logoSize (RGBA.mk 255 255 255 0) = Except.ok rs ∧
          (env.createCanvas ((resolveLogoOptions (resolveQROptions opts).width lopts).logoSize + (resolveLogoOptions (resolveQROptions opts).width lopts).logoMargin * 2) ((resolveLogoOptions (resolveQROptions opts).width lopts).logoSize + (resolveLogoOptions (resolveQROptions opts).width lopts).logoMargin * 2) (RGBA.mk 255 255 255 1) rs (resolveLogoOptions (resolveQROptions opts).width lopts).logoMargin (resolveLogoOptions (resolveQROptions opts).width lopts).logoMargin = Except.error e ∨
           (∃ matte,
             env.createCanvas ((resolveLogoOptions (resolveQROptions opts).width lopts).logoSize + (resolveLogoOptions (resolveQROptions opts).width lopts).logoMargin * 2) ((resolveLogoOptions (resolveQROptions opts).width lopts).logoSize + (resolveLogoOptions (resolveQROptions opts).width lopts).logoMargin * 2) (RGBA.mk 255 255 255 1) rs (resolveLogoOptions (resolveQROptions opts).width lopts).logoMargin (resolveLogoOptions (resolveQROptions opts).width lopts).logoMargin = Except.ok matte ∧
             env.overlay qr matte (logoOverlayPos (resolveQROptions opts).width (resolveLogoOptions (resolveQROptions opts).width lopts).logoSize (resolveLogoOptions (resolveQROptions opts).width lopts).logoMargin).2 (logoOverlayPos (resolveQROptions opts).width (resolveLogoOptions (resolveQROptions opts).width lopts).logoSize (resolveLogoOptions (resolveQROptions opts).width lopts).logoMargin).1 = Except.error e)))))))

/-- Full-success run of the monogram composer. -/
def monoStepsOk (env : Env β) (url : String) (opts : QROptions)
    (monogram : Option String) (mopts : CenterOptions) (b : β) : Prop :=
  ∃ qr mb, env.encodeQR url (resolveQROptions opts) = Except.ok qr ∧
    env.rasterizeSVG (buildMonogramSVG ((resolveMonogramOptions (resolveQROptions opts).width mopts).fontSize + (resolveMonogramOptions (resolveQROptions opts).width mopts).padding * 2) (resolveMonogramOptions (resolveQROptions opts).width mopts) (monogram.getD ("M&E"))) = Except.ok mb ∧
    env.overlay qr mb (monogramContainerPos (resolveQROptions opts).width ((resolveMonogramOptions (resolveQROptions opts).width mopts).fontSize + (resolveMonogramOptions (resolveQROptions opts).width mopts).padding * 2)).2 (monogramContainerPos (resolveQROptions opts).width ((resolveMonogramOptions (resolveQROptions opts).width mopts).fontSize + (resolveMonogramOptions (resolveQROptions opts).width mopts).padding * 2)).1 = Except.ok b

/-- Failing run of the monogram composer: some step in source order failed
with exactly this error, every earlier step having succeeded. -/
def monoStepErr (env : Env β) (url : String) (opts : QROptions)
    (monogram : Option String) (mopts : CenterOptions) (e : Err) : Prop :=
  env.encodeQR url (resolveQROptions opts) = Except.error e ∨
  (∃ qr, env.encodeQR url (resolveQROptions opts) = Except.ok qr ∧
    (env.rasterizeSVG (buildMonogramSVG ((resolveMonogramOptions (resolveQROptions opts).width mopts).fontSize + (resolveMonogramOptions (resolveQROptions opts).width mopts).padding * 2) (resolveMonogramOptions (resolveQROptions opts).width mopts) (monogram.getD ("M&E"))) = Except.error e ∨
     (∃ mb, env.rasterizeSVG (buildMonogramSVG ((resolveMonogramOptions (resolveQROptions opts).width mopts).fontSize + (resolveMonogramOptions (resolveQROptions opts).width mopts).padding * 2) (resolveMonogramOptions (resolveQROptions opts).width mopts) (monogram.getD ("M&E"))) = Except.ok mb ∧
       env.overlay qr mb (monogramContainerPos (resolveQROptions opts).width ((resolveMonogramOptions (resolveQROptions opts).width mopts).fontSize + (resolveMonogramOptions (resolveQROptions opts).width mopts).padding * 2)).2 (monogramContainerPos (resolveQROptions opts).width ((resolveMonogramOptions (resolveQROptions opts).width mopts).fontSize + (resolveMonogramOptions (resolveQROptions opts).width mopts).padding * 2)).1 = Except.error e)))

/-- A concrete environment whose QR encoder fails. -/
def envEncFail : Env (List Nat) :=
  Env.mk (fun _ _ => Except.error (Err.encodingError ("bad")))
    (fun _ => Except.ok (FetchResponse.mk 200 [1]))
    (fun p => p)
    (fun _ => true)
    (fun _ => [2])
    (fun _ _ _ _ => Except.ok [3])
    (fun _ _ _ _ _ _ => Except.ok [4])
    (fun _ _ _ _ => Except.ok [5])
    (fun _ => Except.ok [6])

/-- Claim C1: for every URL string and `centerType = none`, decoding the
raster returned by `generateCustomQR` through a standard QR reader yields
exactly the original URL string (encode-then-decode is the identity on the
payload).  The encoder and reader are the spec-modelled `specEncodeQR` and
`readQRPayload`; the composer itself returns the encoder output untouched. -/
theorem c1_none_roundtrip (url : String) (opts : QROptions) (co : CenterOptions) :
    ((generateCustomQR specQREnv url opts ("none") co).1).map readQRPayload =
      Except.ok url := rfl

/-- Claim C4: for every environment, URL and options, `generateCustomQR`
with `centerType = none` returns exactly the base raster produced by the
underlying encoder for those options, and its effect trace contains only
the encoding step — no overlay, no logo or monogram processing, no further
transformation of the bytes. -/
theorem c4_none_passthrough (env : Env β) (url : String) (opts : QROptions)
    (co : CenterOptions) :
    generateCustomQR env url opts ("none") co =
      (env.encodeQR url (resolveNoneQROptions opts),
       [Eff.encode url (resolveNoneQROptions opts)]) := rfl

/-- Claim C5: the top-left placement of the center canvas is
`floor((pixelWidth − canvasSide)/2)` on both axes, with
`canvasSide = logoSize + 2·logoMargin` for logos and
`fontSize + 2·padding` for monograms; the same formula on both axes and in
both variants. -/
theorem c5_centered_placement (w ls lm fs pad : Nat) :
    logoOverlayPos w ls lm =
      (Int.fdiv ((w : Int) - ((ls : Int) + 2 * (lm : Int))) 2,
       Int.fdiv ((w : Int) - ((ls : Int) + 2 * (lm : Int))) 2) ∧
    (logoOverlayPos w ls lm).1 = (logoOverlayPos w ls lm).2 ∧
    monogramContainerPos w (fs + 2 * pad) =
      (Int.fdiv ((w : Int) - ((fs : Int) + 2 * (pad : Int))) 2,
       Int.fdiv ((w : Int) - ((fs : Int) + 2 * (pad : Int))) 2) ∧
    (monogramContainerPos w (fs + 2 * pad)).1 =
      (monogramContainerPos w (fs + 2 * pad)).2 := by
  refine ⟨?_, rfl, ?_, rfl⟩
  · simp only [logoOverlayPos]
    have h : (ls : Int) + (lm : Int) * 2 = (ls : Int) + 2 * (lm : Int) := by ring
    rw [h]
  · simp only [monogramContainerPos]
    have h : ((fs + 2 * pad : Nat) : Int) = (fs : Int) + 2 * (pad : Int) := by push_cast; ring
    rw [h]

/-- Claim C9: a `centerType = 'logo'` request whose `logoPath` is absent or
the empty string degrades silently to the bare, overlay-less raster: the
result is exactly the encoder output and the trace shows no network fetch
and no filesystem access. -/
theorem c9_missing_logo_degrades (env : Env β) (url : String) (opts : QROptions)
    (co : CenterOptions) (h : co.logoPath = none ∨ co.logoPath = some ("")) :
    generateCustomQR env url opts ("logo") co =
      (env.encodeQR url (resolveQROptions opts),
       [Eff.encode url (resolveQROptions opts)]) := by
  have hd : generateCustomQR env url opts ("logo") co =
      generateQRWithLogo env url opts co.logoPath co := rfl
  rw [hd]
  simp only [generateQRWithLogo]
  rcases h with h | h <;> rw [h] <;>
    cases henc : env.encodeQR url (resolveQROptions opts) <;> simp [henc]

/-- Witness for C9 at a concrete input: empty center options (absent
`logoPath`). -/
theorem c9_missing_logo_degrades_witness :
    generateCustomQR env0 ("u") qrOptsEmpty ("logo") coEmpty =
      (env0.encodeQR ("u") (resolveQROptions qrOptsEmpty),
       [Eff.encode ("u") (resolveQROptions qrOptsEmpty)]) :=
  c9_missing_logo_degrades env0 ("u") qrOptsEmpty coEmpty (Or.inl rfl)

/-- Claim C10: every `centerType` other than `'logo'` and `'monogram'` —
not only `'none'` — falls through to the no-overlay branch: the result is
the bare raster for the given url and options and no invalid-option error is
raised. -/
theorem c10_unrecognized_fallthrough (env : Env β) (url : String) (opts : QROptions)
    (co : CenterOptions) (ct : String) (h1 : ct ≠ "logo") (h2 : ct ≠ "monogram") :
    generateCustomQR env url opts ct co =
      (env.encodeQR url (resolveNoneQROptions opts),
       [Eff.encode url (resolveNoneQROptions opts)]) := by
  unfold generateCustomQR
  split
  · exact absurd rfl h1
  · exact absurd rfl h2
  · rfl

/-- Witness for C10 at the concrete unrecognized value `"sticker"`. -/
theorem c10_unrecognized_fallthrough_witness :
    generateCustomQR env0 ("u") qrOptsEmpty ("sticker") coEmpty =
      (env0.encodeQR ("u") (resolveNoneQROptions qrOptsEmpty),
       [Eff.encode ("u") (resolveNoneQROptions qrOptsEmpty)]) :=
  c10_unrecognized_fallthrough env0 ("u") qrOptsEmpty coEmpty ("sticker")
    (by decide) (by decide)

/-- Helper: the natural-number division embedding of the fractional defaults
agrees with the exact rational floor `⌊w · (k/100)⌋`. -/
lemma natMulDiv_eq_floor (w k : Nat) : w * k / 100 = ⌊(w : ℚ) * ((k : ℚ) / 100)⌋₊ := by
  have h : (w : ℚ) * ((k : ℚ) / 100) = ((w * k : ℕ) : ℚ) / ((100 : ℕ) : ℚ) := by
    push_cast; ring
  rw [h, Nat.floor_div_nat, Nat.floor_natCast]

/-- Claim C7: every omitted option is replaced by its documented default:
pixelWidth 300, margin 2 modules, error-correction level `M`,
dark `#000000` / light `#FFFFFF`; logo size `⌊0.20·pixelWidth⌋` and logo
margin `⌊0.05·pixelWidth⌋`; monogram font size `⌊0.15·pixelWidth⌋` and
monogram padding `⌊0.05·pixelWidth⌋`. -/
theorem c7_defaults (o : QROptions) (c : CenterOptions) (w : Nat) :
    (o.width = none → (resolveQROptions o).width = 300) ∧
    (o.margin = none → (resolveQROptions o).margin = 2) ∧
    (o.errorCorrectionLevel = none →
      (resolveQROptions o).errorCorrectionLevel = "M") ∧
    (o.color = none →
      (resolveQROptions o).color = ColorPair.mk ("#000000") ("#FFFFFF")) ∧
    (c.logoSize = none →
      (resolveLogoOptions w c).logoSize = ⌊(w : ℚ) * ((20 : ℚ) / 100)⌋₊) ∧
    (c.logoMargin = none →
      (resolveLogoOptions w c).logoMargin = ⌊(w : ℚ) * ((5 : ℚ) / 100)⌋₊) ∧
    (c.fontSize = none →
      (resolveMonogramOptions w c).fontSize = ⌊(w : ℚ) * ((15 : ℚ) / 100)⌋₊) ∧
    (c.padding = none →
      (resolveMonogramOptions w c).padding = ⌊(w : ℚ) * ((5 : ℚ) / 100)⌋₊) := by
  refine ⟨?_, ?_, ?_, ?_, ?_, ?_, ?_, ?_⟩ <;> intro h <;>
    simp [resolveQROptions, resolveLogoOptions, resolveMonogramOptions, h,
      natMulDiv_eq_floor]

/-- Witness for C7 at the empty options objects and `pixelWidth = 300`. -/
theorem c7_defaults_witness :
    (resolveQROptions qrOptsEmpty).width = 300 ∧
    (resolveQROptions qrOptsEmpty).margin = 2 ∧
    (resolveQROptions qrOptsEmpty).errorCorrectionLevel = "M" ∧
    (resolveQROptions qrOptsEmpty).color = ColorPair.mk ("#000000") ("#FFFFFF") ∧
    (resolveLogoOptions 300 coEmpty).logoSize = ⌊(300 : ℚ) * ((20 : ℚ) / 100)⌋₊ ∧
    (resolveLogoOptions 300 coEmpty).logoMargin = ⌊(300 : ℚ) * ((5 : ℚ) / 100)⌋₊ ∧
    (resolveMonogramOptions 300 coEmpty).fontSize = ⌊(300 : ℚ) * ((15 : ℚ) / 100)⌋₊ ∧
    (resolveMonogramOptions 300 coEmpty).padding = ⌊(300 : ℚ) * ((5 : ℚ) / 100)⌋₊ := by
  obtain ⟨h1, h2, h3, h4, h5, h6, h7, h8⟩ := c7_defaults qrOptsEmpty coEmpty 300
  exact ⟨h1 rfl, h2 rfl, h3 rfl, h4 rfl, h5 rfl, h6 rfl, h7 rfl, h8 rfl⟩

/-- Helper: a global single-character replacement distributes over list
concatenation. -/
lemma replaceChar_append (c : Char) (rep xs ys : List Char) :
    replaceChar c rep (xs ++ ys) = replaceChar c rep xs ++ replaceChar c rep ys := by
  induction xs with
  | nil => rfl
  | cons d ds ih => by_cases h : d = c <;> simp [replaceChar, h, ih]

/-- Helper: `&amp;` contains no `<`, so the second replacement pass leaves it
alone. -/
lemma rlt_amp : replaceChar '<' ltEntity ampEntity = ampEntity := rfl

/-- Helper: `&amp;` contains no `>`, so the third replacement pass leaves it
alone. -/
lemma rgt_amp : replaceChar '>' gtEntity ampEntity = ampEntity := rfl

/-- Helper: `&lt;` contains no `>`, so the third replacement pass leaves it
alone. -/
lemma rgt_lt : replaceChar '>' gtEntity ltEntity = ltEntity := rfl

/-- Helper: escaping a list headed by `&`. -/
lemma esc_amp (ds : List Char) :
    escapeXmlChars ('&' :: ds) = ampEntity ++ escapeXmlChars ds := by
  unfold escapeXmlChars
  rw [show replaceChar '&' ampEntity ('&' :: ds) =
      ampEntity ++ replaceChar '&' ampEntity ds from by simp [replaceChar]]
  rw [replaceChar_append, rlt_amp, replaceChar_append, rgt_amp]

/-- Helper: escaping a list headed by `<`. -/
lemma esc_lt (ds : List Char) :
    escapeXmlChars ('<' :: ds) = ltEntity ++ escapeXmlChars ds := by
  unfold escapeXmlChars
  rw [show replaceChar '&' ampEntity ('<' :: ds) =
      '<' :: replaceChar '&' ampEntity ds from by simp [replaceChar]]
  rw [show replaceChar '<' ltEntity ('<' :: replaceChar '&' ampEntity ds) =
      ltEntity ++ replaceChar '<' ltEntity (replaceChar '&' ampEntity ds) from by
      simp [replaceChar]]
  rw [replaceChar_append, rgt_lt]

/-- Helper: escaping a list headed by `>`. -/
lemma esc_gt (ds : List Char) :
    escapeXmlChars ('>' :: ds) = gtEntity ++ escapeXmlChars ds := by
  unfold escapeXmlChars
  rw [show replaceChar '&' ampEntity ('>' :: ds) =
      '>' :: replaceChar '&' ampEntity ds from by simp [replaceChar]]
  rw [show replaceChar '<' ltEntity ('>' :: replaceChar '&' ampEntity ds) =
      '>' :: replaceChar '<' ltEntity (replaceChar '&' ampEntity ds) from by
      simp [replaceChar]]
  simp [replaceChar]

/-- Helper: escaping a list headed by an ordinary character. -/
lemma esc_other (d : Char) (ds : List Char) (h1 : d ≠ '&') (h2 : d ≠ '<')
    (h3 : d ≠ '>') :
    escapeXmlChars (d :: ds) = d :: escapeXmlChars ds := by
  unfold escapeXmlChars
  simp [replaceChar, h1, h2, h3]

/-- Helper: because `&` is replaced first and the entities introduced for
`<` and `>` are produced only afterwards, the three sequential global
replacements act as a single character-wise escaping pass: nothing is
double-escaped. -/
lemma escapeXmlChars_eq_escAll (s : List Char) : escapeXmlChars s = escAll s := by
  induction s with
  | nil => rfl
  | cons d ds ih =>
    by_cases h1 : d = '&'
    · subst h1; rw [esc_amp, ih]; rfl
    · by_cases h2 : d = '<'
      · subst h2; rw [esc_lt, ih]; rfl
      · by_cases h3 : d = '>'
        · subst h3; rw [esc_gt, ih]; rfl
        · rw [esc_other d ds h1 h2 h3, ih]
          simp [escAll, escChar, h1, h2, h3]

/-- Helper: decoding an `&amp;` entity. -/
lemma unescape_amp (t : List Char) :
    unescapeXml ('&' :: 'a' :: 'm' :: 'p' :: ';' :: t) = '&' :: unescapeXml t := rfl

/-- Helper: decoding an `&lt;` entity. -/
lemma unescape_lt (t : List Char) :
    unescapeXml ('&' :: 'l' :: 't' :: ';' :: t) = '<' :: unescapeXml t := rfl

/-- Helper: decoding an `&gt;` entity. -/
lemma unescape_gt (t : List Char) :
    unescapeXml ('&' :: 'g' :: 't' :: ';' :: t) = '>' :: unescapeXml t := rfl

/-- Helper: a character other than `&` decodes to itself. -/
lemma unescape_cons (c : Char) (t : List Char) (h : c ≠ '&') :
    unescapeXml (c :: t) = c :: unescapeXml t := by
  conv_lhs => rw [unescapeXml.eq_def]
  split <;> simp_all

/-- Helper: decoding inverts single-pass escaping. -/
lemma unescape_escAll (l : List Char) : unescapeXml (escAll l) = l := by
  induction l with
  | nil => rfl
  | cons c cs ih =>
    by_cases h1 : c = '&'
    · subst h1
      show unescapeXml (escChar '&' ++ escAll cs) = _
      rw [show escChar '&' = ampEntity from rfl]
      rw [show ampEntity ++ escAll cs = '&' :: 'a' :: 'm' :: 'p' :: ';' :: escAll cs from rfl]
      rw [unescape_amp, ih]
    · by_cases h2 : c = '<'
      · subst h2
        show unescapeXml (escChar '<' ++ escAll cs) = _
        rw [show escChar '<' = ltEntity from rfl]
        rw [show ltEntity ++ escAll cs = '&' :: 'l' :: 't' :: ';' :: escAll cs from rfl]
        rw [unescape_lt, ih]
      · by_cases h3 : c = '>'
        · subst h3
          show unescapeXml (escChar '>' ++ escAll cs) = _
          rw [show escChar '>' = gtEntity from rfl]
          rw [show gtEntity ++ escAll cs = '&' :: 'g' :: 't' :: ';' :: escAll cs from rfl]
          rw [unescape_gt, ih]
        · show unescapeXml (escChar c ++ escAll cs) = _
          rw [show escChar c = [c] from by simp [escChar, h1, h2, h3]]
          rw [show [c] ++ escAll cs = c :: escAll cs from rfl]
          rw [unescape_cons c (escAll cs) h1, ih]

/-- Claim C6: the characters `&`, `<`, `>` of the monogram text are replaced
by their XML entities before the text is embedded in the SVG markup; the
three sequential replacements act as one character-wise pass, so nothing is
double-escaped, and XML-decoding the escaped text yields exactly the literal
input characters.  The third conjunct exhibits the escaped text embedded in
the intermediate SVG markup built by the source. -/
theorem c6_escape_correct (m : String) :
    escapeXmlChars m.data = escAll m.data ∧
    unescapeXml (escapeXmlChars m.data) = m.data ∧
    (∀ (cs : Nat) (mo : ResolvedMonogramOptions),
      buildMonogramSVG cs mo m = svgTextPre cs mo ++ escapeXml m ++ svgTextPost) := by
  refine ⟨escapeXmlChars_eq_escAll m.data, ?_, fun cs mo => rfl⟩
  rw [escapeXmlChars_eq_escAll]
  exact unescape_escAll m.data

/-- Claim C3: for a non-null logo source, an http(s)-scheme source is
fetched and fails with `LogoFetchError` exactly when the HTTP status is
non-success, its effect trace being the single network fetch (no filesystem
access); any other source is treated as a local file path and fails with
`LogoNotFoundError` exactly when the file does not exist, its effect trace
containing only filesystem operations (no network call). -/
theorem c3_logo_source_resolution (env : Env β) (lp : String) :
    (∀ resp : FetchResponse β, isRemoteUrl lp = true →
      env.fetch lp = Except.ok resp →
      ((resolveLogoSource env lp).1 =
          (if responseOk resp.status then Except.ok resp.body
           else Except.error (Err.logoFetchError lp resp.status)) ∧
       ((resolveLogoSource env lp).1 =
          Except.error (Err.logoFetchError lp resp.status) ↔
          responseOk resp.status = false) ∧
       (resolveLogoSource env lp).2 = [Eff.netFetch lp])) ∧
    (∀ e : Err, isRemoteUrl lp = true → env.fetch lp = Except.error e →
      (resolveLogoSource env lp).1 = Except.error e ∧
      (resolveLogoSource env lp).2 = [Eff.netFetch lp]) ∧
    (isRemoteUrl lp = false →
      ((resolveLogoSource env lp).1 =
         (if env.fileExists (actualLogoPath env.joinDirname lp) then
            Except.ok (env.readFile (actualLogoPath env.joinDirname lp))
          else Except.error (Err.logoNotFoundError lp)) ∧
       ((resolveLogoSource env lp).1 =
          Except.error (Err.logoNotFoundError lp) ↔
          env.fileExists (actualLogoPath env.joinDirname lp) = false) ∧
       (resolveLogoSource env lp).2 =
         (if env.fileExists (actualLogoPath env.joinDirname lp) then
            [Eff.fsCheck (actualLogoPath env.joinDirname lp),
             Eff.fsRead (actualLogoPath env.joinDirname lp)]
          else [Eff.fsCheck (actualLogoPath env.joinDirname lp)]))) := by
  refine ⟨?_, ?_, ?_⟩
  · intro resp hr hf
    unfold resolveLogoSource
    rw [hr, hf]
    by_cases hok : responseOk resp.status = true <;> simp_all
  · intro e hr hf
    unfold resolveLogoSource
    rw [hr, hf]
    simp
  · intro hr
    unfold resolveLogoSource
    rw [hr]
    by_cases hex : env.fileExists (actualLogoPath env.joinDirname lp) = true <;>
      simp_all

/-- Witness for C3 at concrete inputs: a remote URL answered with HTTP 404
(remote branch) and a missing local file (local branch), both in the
`envFail` environment. -/
theorem c3_logo_source_resolution_witness :
    (((resolveLogoSource envFail ("http://logo.example/x")).1 =
        (if responseOk 404 then Except.ok [1]
         else Except.error (Err.logoFetchError ("http://logo.example/x") 404)) ∧
      ((resolveLogoSource envFail ("http://logo.example/x")).1 =
         Except.error (Err.logoFetchError ("http://logo.example/x") 404) ↔
         responseOk 404 = false) ∧
      (resolveLogoSource envFail ("http://logo.example/x")).2 =
        [Eff.netFetch ("http://logo.example/x")]) ∧
     ((resolveLogoSource envFail ("missing.png")).1 =
        (if envFail.fileExists (actualLogoPath envFail.joinDirname ("missing.png")) then
           Except.ok (envFail.readFile (actualLogoPath envFail.joinDirname ("missing.png")))
         else Except.error (Err.logoNotFoundError ("missing.png"))) ∧
      ((resolveLogoSource envFail ("missing.png")).1 =
         Except.error (Err.logoNotFoundError ("missing.png")) ↔
         envFail.fileExists (actualLogoPath envFail.joinDirname ("missing.png")) = false) ∧
      (resolveLogoSource envFail ("missing.png")).2 =
        (if envFail.fileExists (actualLogoPath envFail.joinDirname ("missing.png")) then
           [Eff.fsCheck (actualLogoPath envFail.joinDirname ("missing.png")),
            Eff.fsRead (actualLogoPath envFail.joinDirname ("missing.png"))]
         else [Eff.fsCheck (actualLogoPath envFail.joinDirname ("missing.png"))]))) := by
  constructor
  · exact (c3_logo_source_resolution envFail ("http://logo.example/x")).1
      (FetchResponse.mk 404 [1]) (by decide) rfl
  · exact (c3_logo_source_resolution envFail ("missing.png")).2.2 (by decide)

/-- Helper: complete case analysis of a `generateQRWithLogo` run by the
outcome of each external step, in source order; in every case the exact
result and effect trace are given. -/
lemma logo_run_cases (env : Env β) (url : String) (opts : QROptions)
    (lp : Option String) (lopts : CenterOptions) :
    (∃ e, env.encodeQR url (resolveQROptions opts) = Except.error e ∧
      generateQRWithLogo env url opts lp lopts = (Except.error e, [Eff.encode url (resolveQROptions opts)])) ∨
    (∃ qr, env.encodeQR url (resolveQROptions opts) = Except.ok qr ∧
      (lp = none ∨ lp = some ("")) ∧
      generateQRWithLogo env url opts lp lopts = (Except.ok qr, [Eff.encode url (resolveQROptions opts)])) ∨
    (∃ qr p, env.encodeQR url (resolveQROptions opts) = Except.ok qr ∧
      lp = some p ∧ ¬ p = "" ∧
      ((∃ e, (resolveLogoSource env p).1 = Except.error e ∧
        generateQRWithLogo env url opts lp lopts = (Except.error e, Eff.encode url (resolveQROptions opts) :: (resolveLogoSource env p).2)) ∨
       (∃ src, (resolveLogoSource env p).1 = Except.ok src ∧
        ((∃ e, env.resize src (resolveLogoOptions (resolveQROptions opts).width lopts).logoSize (resolveLogoOptions (resolveQROptions opts).width lopts).logoSize (RGBA.mk 255 255 255 0) = Except.error e ∧
          generateQRWithLogo env url opts lp lopts = (Except.error e, Eff.encode url (resolveQROptions opts) :: (resolveLogoSource env p).2 ++ [Eff.resize (resolveLogoOptions (resolveQROptions opts).width lopts).logoSize (resolveLogoOptions (resolveQROptions opts).width lopts).logoSize (RGBA.mk 255 255 255 0)])) ∨
         (∃ rs, env.resize src (resolveLogoOptions (resolveQROptions opts).width lopts).logoSize (resolveLogoOptions (resolveQROptions opts).width lopts).logoSize (RGBA.mk 255 255 255 0) = Except.ok rs ∧
          ((∃ e, env.createCanvas ((resolveLogoOptions (resolveQROptions opts).width lopts).logoSize + (resolveLogoOptions (resolveQROptions opts).width lopts).logoMargin * 2) ((resolveLogoOptions (resolveQROptions opts).width lopts).logoSize + (resolveLogoOptions (resolveQROptions opts).width lopts).logoMargin * 2) (RGBA.mk 255 255 255 1) rs (resolveLogoOptions (resolveQROptions opts).width lopts).logoMargin (resolveLogoOptions (resolveQROptions opts).width lopts).logoMargin = Except.error e ∧
            generateQRWithLogo env url opts lp lopts = (Except.error e, Eff.encode url (resolveQROptions opts) :: (resolveLogoSource env p).2 ++ [Eff.resize (resolveLogoOptions (resolveQROptions opts).width lopts).logoSize (resolveLogoOptions (resolveQROptions opts).width lopts).logoSize (RGBA.mk 255 255 255 0), Eff.createCanvas ((resolveLogoOptions (resolveQROptions opts).width lopts).logoSize + (resolveLogoOptions (resolveQROptions opts).width lopts).logoMargin * 2) ((resolveLogoOptions (resolveQROptions opts).width lopts).logoSize + (resolveLogoOptions (resolveQROptions opts).width lopts).logoMargin * 2) (RGBA.mk 255 255 255 1) (resolveLogoOptions (resolveQROptions opts).width lopts).logoMargin (resolveLogoOptions (resolveQROptions opts).width lopts).logoMargin])) ∨
           (∃ matte, env.createCanvas ((resolveLogoOptions (resolveQROptions opts).width lopts).logoSize + (resolveLogoOptions (resolveQROptions opts).width lopts).logoMargin * 2) ((resolveLogoOptions (resolveQROptions opts).width lopts).logoSize + (resolveLogoOptions (resolveQROptions opts).width lopts).logoMargin * 2) (RGBA.mk 255 255 255 1) rs (resolveLogoOptions (resolveQROptions opts).width lopts).logoMargin (resolveLogoOptions (resolveQROptions opts).width lopts).logoMargin = Except.ok matte ∧
            ((∃ e, env.overlay qr matte (logoOverlayPos (resolveQROptions opts).width (resolveLogoOptions (resolveQROptions opts).width lopts).logoSize (resolveLogoOptions (resolveQROptions opts).width lopts).logoMargin).2 (logoOverlayPos (resolveQROptions opts).width (resolveLogoOptions (resolveQROptions opts).width lopts).logoSize (resolveLogoOptions (resolveQROptions opts).width lopts).logoMargin).1 = Except.error e ∧
              (generateQRWithLogo env url opts lp lopts).1 = Except.error e) ∨
             (∃ fin, env.overlay qr matte (logoOverlayPos (resolveQROptions opts).width (resolveLogoOptions (resolveQROptions opts).width lopts).logoSize (resolveLogoOptions (resolveQROptions opts).width lopts).logoMargin).2 (logoOverlayPos (resolveQROptions opts).width (resolveLogoOptions (resolveQROptions opts).width lopts).logoSize (resolveLogoOptions (resolveQROptions opts).width lopts).logoMargin).1 = Except.ok fin ∧
              (generateQRWithLogo env url opts lp lopts).1 = Except.ok fin)) ∧
            (generateQRWithLogo env url opts lp lopts).2 = Eff.encode url (resolveQROptions opts) :: (resolveLogoSource env p).2 ++ [Eff.resize (resolveLogoOptions (resolveQROptions opts).width lopts).logoSize (resolveLogoOptions (resolveQROptions opts).width lopts).logoSize (RGBA.mk 255 255 255 0), Eff.createCanvas ((resolveLogoOptions (resolveQROptions opts).width lopts).logoSize + (resolveLogoOptions (resolveQROptions opts).width lopts).logoMargin * 2) ((resolveLogoOptions (resolveQROptions opts).width lopts).logoSize + (resolveLogoOptions (resolveQROptions opts).width lopts).logoMargin * 2) (RGBA.mk 255 255 255 1) (resolveLogoOptions (resolveQROptions opts).width lopts).logoMargin (resolveLogoOptions (resolveQROptions opts).width lopts).logoMargin, Eff.overlay (logoOverlayPos (resolveQROptions opts).width (resolveLogoOptions (resolveQROptions opts).width lopts).logoSize (resolveLogoOptions (resolveQROptions opts).width lopts).logoMargin).2 (logoOverlayPos (resolveQROptions opts).width (resolveLogoOptions (resolveQROptions opts).width lopts).logoSize (resolveLogoOptions (resolveQROptions opts).width lopts).logoMargin).1]))))))) := by
  cases henc : env.encodeQR url (resolveQROptions opts) with
  | error e =>
    exact Or.inl ⟨e, rfl, by simp [generateQRWithLogo, henc]⟩
  | ok qr =>
    cases lp with
    | none =>
      exact Or.inr (Or.inl ⟨qr, rfl, Or.inl rfl, by simp [generateQRWithLogo, henc]⟩)
    | some p =>
      by_cases hp : p = ""
      · subst hp
        exact Or.inr (Or.inl ⟨qr, rfl, Or.inr rfl, by simp [generateQRWithLogo, henc]⟩)
      · refine Or.inr (Or.inr ⟨qr, p, rfl, rfl, hp, ?_⟩)
        rcases hres : resolveLogoSource env p with ⟨r, tr⟩
        cases r with
        | error e =>
          exact Or.inl ⟨e, rfl, by simp [generateQRWithLogo, henc, hp, hres]⟩
        | ok src =>
          refine Or.inr ⟨src, rfl, ?_⟩
          cases hrs : env.resize src (resolveLogoOptions (resolveQROptions opts).width lopts).logoSize (resolveLogoOptions (resolveQROptions opts).width lopts).logoSize (RGBA.mk 255 255 255 0) with
          | error e =>
            exact Or.inl ⟨e, rfl, by simp [generateQRWithLogo, henc, hp, hres, hrs]⟩
          | ok rs =>
            refine Or.inr ⟨rs, rfl, ?_⟩
            cases hcc : env.createCanvas ((resolveLogoOptions (resolveQROptions opts).width lopts).logoSize + (resolveLogoOptions (resolveQROptions opts).width lopts).logoMargin * 2) ((resolveLogoOptions (resolveQROptions opts).width lopts).logoSize + (resolveLogoOptions (resolveQROptions opts).width lopts).logoMargin * 2) (RGBA.mk 255 255 255 1) rs (resolveLogoOptions (resolveQROptions opts).width lopts).logoMargin (resolveLogoOptions (resolveQROptions opts).width lopts).logoMargin with
            | error e =>
              exact Or.inl ⟨e, rfl, by simp [generateQRWithLogo, henc, hp, hres, hrs, hcc]⟩
            | ok matte =>
              refine Or.inr ⟨matte, rfl, ?_, ?_⟩
              · cases hov : env.overlay qr matte (logoOverlayPos (resolveQROptions opts).width (resolveLogoOptions (resolveQROptions opts).width lopts).logoSize (resolveLogoOptions (resolveQROptions opts).width lopts).logoMargin).2 (logoOverlayPos (resolveQROptions opts).width (resolveLogoOptions (resolveQROptions opts).width lopts).logoSize (resolveLogoOptions (resolveQROptions opts).width lopts).logoMargin).1 with
                | error e =>
                  exact Or.inl ⟨e, rfl, by simp [generateQRWithLogo, henc, hp, hres, hrs, hcc, hov]⟩
                | ok fin =>
                  exact Or.inr ⟨fin, rfl, by simp [generateQRWithLogo, henc, hp, hres, hrs, hcc, hov]⟩
              · cases hov : env.overlay qr matte (logoOverlayPos (resolveQROptions opts).width (resolveLogoOptions (resolveQROptions opts).width lopts).logoSize (resolveLogoOptions (resolveQROptions opts).width lopts).logoMargin).2 (logoOverlayPos (resolveQROptions opts).width (resolveLogoOptions (resolveQROptions opts).width lopts).logoSize (resolveLogoOptions (resolveQROptions opts).width lopts).logoMargin).1 with
                | error e =>
                  simp [generateQRWithLogo, henc, hp, hres, hrs, hcc, hov]
                | ok fin =>
                  simp [generateQRWithLogo, henc, hp, hres, hrs, hcc, hov]

/-- Helper: every effect recorded while resolving a logo source is a network
fetch or a filesystem operation. -/
lemma resolveLogoSource_trace_shape (env : Env β) (p : String) (e : Eff)
    (he : e ∈ (resolveLogoSource env p).2) :
    (∃ u, e = Eff.netFetch u) ∨ (∃ q, e = Eff.fsCheck q) ∨ (∃ q, e = Eff.fsRead q) := by
  simp only [resolveLogoSource] at he
  split at he
  · split at he
    · simp at he; exact Or.inl ⟨p, he⟩
    · split at he <;> (simp at he; exact Or.inl ⟨p, he⟩)
  · split at he
    · simp at he
      rcases he with he | he
      · exact Or.inr (Or.inl ⟨_, he⟩)
      · exact Or.inr (Or.inr ⟨_, he⟩)
    · simp at he; exact Or.inr (Or.inl ⟨_, he⟩)

/-- Helper: no canvas-creation effect is recorded while resolving a logo
source. -/
lemma no_createCanvas_in_resolveTrace (env : Env β) (p : String) (w h : Nat)
    (bg : RGBA) (top left : Nat) :
    Eff.createCanvas w h bg top left ∉ (resolveLogoSource env p).2 := by
  intro he
  rcases resolveLogoSource_trace_shape env p _ he with ⟨u, hu⟩ | ⟨q, hq⟩ | ⟨q, hq⟩
  · exact Eff.noConfusion hu
  · exact Eff.noConfusion hq
  · exact Eff.noConfusion hq

/-- Claim C2, amended: the opaque square matte canvas onto which the resized
logo is composited has side `logoSize + 2·logoMargin` with the logo placed at
offset `(logoMargin, logoMargin)` (centered), and is always filled with the
fixed opaque white `{ r: 255, g: 255, b: 255, alpha: 1 }`, for every value of
the `logoBackground` option — the caller-supplied background color is parsed
but never used. -/
theorem c2_matte_always_white (env : Env β) (url : String) (opts : QROptions)
    (lp : Option String) (lopts : CenterOptions) (w h : Nat) (bg : RGBA)
    (top left : Nat)
    (hmem : Eff.createCanvas w h bg top left ∈
      (generateQRWithLogo env url opts lp lopts).2) :
    bg = RGBA.mk 255 255 255 1 ∧
    w = (resolveLogoOptions (resolveQROptions opts).width lopts).logoSize +
        (resolveLogoOptions (resolveQROptions opts).width lopts).logoMargin * 2 ∧
    h = (resolveLogoOptions (resolveQROptions opts).width lopts).logoSize +
        (resolveLogoOptions (resolveQROptions opts).width lopts).logoMargin * 2 ∧
    top = (resolveLogoOptions (resolveQROptions opts).width lopts).logoMargin ∧
    left = (resolveLogoOptions (resolveQROptions opts).width lopts).logoMargin := by
  rcases logo_run_cases env url opts lp lopts with
    ⟨e, _, hrun⟩ | ⟨qr, _, _, hrun⟩ | ⟨qr, p, _, _, _, hrest⟩
  · rw [hrun] at hmem; simp at hmem
  · rw [hrun] at hmem; simp at hmem
  · rcases hrest with ⟨e, _, hrun⟩ | ⟨src, _, hrest⟩
    · rw [hrun] at hmem
      simp at hmem
      exact absurd hmem (no_createCanvas_in_resolveTrace env p w h bg top left)
    · rcases hrest with ⟨e, _, hrun⟩ | ⟨rs, _, hrest⟩
      · rw [hrun] at hmem
        simp at hmem
        exact absurd hmem (no_createCanvas_in_resolveTrace env p w h bg top left)
      · rcases hrest with ⟨e, _, hrun⟩ | ⟨matte, _, _, htr⟩
        · rw [hrun] at hmem
          simp at hmem
          rcases hmem with hmem | ⟨h1, h2, h3, h4, h5⟩
          · exact absurd hmem (no_createCanvas_in_resolveTrace env p w h bg top left)
          · exact ⟨h3, h1, h2, h4, h5⟩
        · rw [htr] at hmem
          simp at hmem
          rcases hmem with hmem | ⟨h1, h2, h3, h4, h5⟩
          · exact absurd hmem (no_createCanvas_in_resolveTrace env p w h bg top left)
          · exact ⟨h3, h1, h2, h4, h5⟩

/-- Claim C2, counterexample: at a concrete logo request whose
`logoBackground` option is `#FF0000`, the canvas-creation effect recorded by
the run carries the fixed opaque white `{255, 255, 255, 1}`, which is not the
color denoted by the caller-supplied `#FF0000` — so the matte canvas is not
filled with the caller-supplied background color for every value of that
option. -/
theorem c2_counterexample :
    (generateQRWithLogo env0 ("https://example.com/i/a") qrOptsEmpty
      (some ("logo.png")) coRedBg).2 =
      [Eff.encode ("https://example.com/i/a")
         (ResolvedQROptions.mk 300 2 (ColorPair.mk ("#000000") ("#FFFFFF")) ("M")),
       Eff.fsCheck ("logo.png"), Eff.fsRead ("logo.png"),
       Eff.resize 60 60 (RGBA.mk 255 255 255 0),
       Eff.createCanvas 90 90 (RGBA.mk 255 255 255 1) 15 15,
       Eff.overlay 105 105] ∧
    coRedBg.logoBackground = some ("#FF0000") ∧
    specHexColor ("#FF0000") = RGBA.mk 255 0 0 1 ∧
    specHexColor ("#FF0000") ≠ RGBA.mk 255 255 255 1 :=
  ⟨rfl, rfl, by decide, by decide⟩

/-- Witness for the amended C2 at a concrete logo run: the recorded canvas
effect is 90×90, white, offset (15, 15). -/
theorem c2_matte_always_white_witness :
    RGBA.mk 255 255 255 1 = RGBA.mk 255 255 255 1 ∧
    (90 : Nat) = (resolveLogoOptions (resolveQROptions qrOptsEmpty).width coRedBg).logoSize +
        (resolveLogoOptions (resolveQROptions qrOptsEmpty).width coRedBg).logoMargin * 2 ∧
    (90 : Nat) = (resolveLogoOptions (resolveQROptions qrOptsEmpty).width coRedBg).logoSize +
        (resolveLogoOptions (resolveQROptions qrOptsEmpty).width coRedBg).logoMargin * 2 ∧
    (15 : Nat) = (resolveLogoOptions (resolveQROptions qrOptsEmpty).width coRedBg).logoMargin ∧
    (15 : Nat) = (resolveLogoOptions (resolveQROptions qrOptsEmpty).width coRedBg).logoMargin :=
  c2_matte_always_white env0 ("https://example.com/i/a") qrOptsEmpty
    (some ("logo.png")) coRedBg 90 90 (RGBA.mk 255 255 255 1) 15 15 (by decide)

/-- Helper: complete case analysis of a `generateQRWithMonogram` run by the
outcome of each external step, in source order. -/
lemma mono_run_cases (env : Env β) (url : String) (opts : QROptions)
    (monogram : Option String) (mopts : CenterOptions) :
    (∃ e, env.encodeQR url (resolveQROptions opts) = Except.error e ∧
      generateQRWithMonogram env url opts monogram mopts = (Except.error e, [Eff.encode url (resolveQROptions opts)])) ∨
    (∃ qr, env.encodeQR url (resolveQROptions opts) = Except.ok qr ∧
      ((∃ e, env.rasterizeSVG (buildMonogramSVG ((resolveMonogramOptions (resolveQROptions opts).width mopts).fontSize + (resolveMonogramOptions (resolveQROptions opts).width mopts).padding * 2) (resolveMonogramOptions (resolveQROptions opts).width mopts) (monogram.getD ("M&E"))) = Except.error e ∧
        generateQRWithMonogram env url opts monogram mopts = (Except.error e, [Eff.encode url (resolveQROptions opts), Eff.rasterize (buildMonogramSVG ((resolveMonogramOptions (resolveQROptions opts).width mopts).fontSize + (resolveMonogramOptions (resolveQROptions opts).width mopts).padding * 2) (resolveMonogramOptions (resolveQROptions opts).width mopts) (monogram.getD ("M&E")))])) ∨
       (∃ mb, env.rasterizeSVG (buildMonogramSVG ((resolveMonogramOptions (resolveQROptions opts).width mopts).fontSize + (resolveMonogramOptions (resolveQROptions opts).width mopts).padding * 2) (resolveMonogramOptions (resolveQROptions opts).width mopts) (monogram.getD ("M&E"))) = Except.ok mb ∧
        ((∃ e, env.overlay qr mb (monogramContainerPos (resolveQROptions opts).width ((resolveMonogramOptions (resolveQROptions opts).width mopts).fontSize + (resolveMonogramOptions (resolveQROptions opts).width mopts).padding * 2)).2 (monogramContainerPos (resolveQROptions opts).width ((resolveMonogramOptions (resolveQROptions opts).width mopts).fontSize + (resolveMonogramOptions (resolveQROptions opts).width mopts).padding * 2)).1 = Except.error e ∧
          generateQRWithMonogram env url opts monogram mopts = (Except.error e, [Eff.encode url (resolveQROptions opts), Eff.rasterize (buildMonogramSVG ((resolveMonogramOptions (resolveQROptions opts).width mopts).fontSize + (resolveMonogramOptions (resolveQROptions opts).width mopts).padding * 2) (resolveMonogramOptions (resolveQROptions opts).width mopts) (monogram.getD ("M&E"))), Eff.overlay (monogramContainerPos (resolveQROptions opts).width ((resolveMonogramOptions (resolveQROptions opts).width mopts).fontSize + (resolveMonogramOptions (resolveQROptions opts).width mopts).padding * 2)).2 (monogramContainerPos (resolveQROptions opts).width ((resolveMonogramOptions (resolveQROptions opts).width mopts).fontSize + (resolveMonogramOptions (resolveQROptions opts).width mopts).padding * 2)).1])) ∨
         (∃ fin, env.overlay qr mb (monogramContainerPos (resolveQROptions opts).width ((resolveMonogramOptions (resolveQROptions opts).width mopts).fontSize + (resolveMonogramOptions (resolveQROptions opts).width mopts).padding * 2)).2 (monogramContainerPos (resolveQROptions opts).width ((resolveMonogramOptions (resolveQROptions opts).width mopts).fontSize + (resolveMonogramOptions (resolveQROptions opts).width mopts).padding * 2)).1 = Except.ok fin ∧
          generateQRWithMonogram env url opts monogram mopts = (Except.ok fin, [Eff.encode url (resolveQROptions opts), Eff.rasterize (buildMonogramSVG ((resolveMonogramOptions (resolveQROptions opts).width mopts).fontSize + (resolveMonogramOptions (resolveQROptions opts).width mopts).padding * 2) (resolveMonogramOptions (resolveQROptions opts).width mopts) (monogram.getD ("M&E"))), Eff.overlay (monogramContainerPos (resolveQROptions opts).width ((resolveMonogramOptions (resolveQROptions opts).width mopts).fontSize + (resolveMonogramOptions (resolveQROptions opts).width mopts).padding * 2)).2 (monogramContainerPos (resolveQROptions opts).width ((resolveMonogramOptions (resolveQROptions opts).width mopts).fontSize + (resolveMonogramOptions (resolveQROptions opts).width mopts).padding * 2)).1])))))) := by
  cases henc : env.encodeQR url (resolveQROptions opts) with
  | error e =>
    exact Or.inl ⟨e, rfl, by simp [generateQRWithMonogram, henc]⟩
  | ok qr =>
    refine Or.inr ⟨qr, rfl, ?_⟩
    cases hra : env.rasterizeSVG (buildMonogramSVG ((resolveMonogramOptions (resolveQROptions opts).width mopts).fontSize + (resolveMonogramOptions (resolveQROptions opts).width mopts).padding * 2) (resolveMonogramOptions (resolveQROptions opts).width mopts) (monogram.getD ("M&E"))) with
    | error e =>
      exact Or.inl ⟨e, rfl, by simp [generateQRWithMonogram, henc, hra]⟩
    | ok mb =>
      refine Or.inr ⟨mb, rfl, ?_⟩
      cases hov : env.overlay qr mb (monogramContainerPos (resolveQROptions opts).width ((resolveMonogramOptions (resolveQROptions opts).width mopts).fontSize + (resolveMonogramOptions (resolveQROptions opts).width mopts).padding * 2)).2 (monogramContainerPos (resolveQROptions opts).width ((resolveMonogramOptions (resolveQROptions opts).width mopts).fontSize + (resolveMonogramOptions (resolveQROptions opts).width mopts).padding * 2)).1 with
      | error e =>
        exact Or.inl ⟨e, rfl, by simp [generateQRWithMonogram, henc, hra, hov]⟩
      | ok fin =>
        exact Or.inr ⟨fin, rfl, by simp [generateQRWithMonogram, henc, hra, hov]⟩

/-- Claim C8: `generateQRWithLogo` and `generateQRWithMonogram` propagate
every internal failure to their immediate caller unchanged and return no
buffer on failure; a buffer is returned only when every executed step
succeeded — no error is caught and swallowed. -/
theorem c8_errors_propagate (env : Env β) (url : String) (opts : QROptions)
    (lp : Option String) (lopts : CenterOptions) (monogram : Option String)
    (mopts : CenterOptions) :
    (∀ b, (generateQRWithLogo env url opts lp lopts).1 = Except.ok b →
      logoStepsOk env url opts lp lopts b) ∧
    (∀ e, (generateQRWithLogo env url opts lp lopts).1 = Except.error e →
      logoStepErr env url opts lp lopts e) ∧
    (∀ b, (generateQRWithMonogram env url opts monogram mopts).1 = Except.ok b →
      monoStepsOk env url opts monogram mopts b) ∧
    (∀ e, (generateQRWithMonogram env url opts monogram mopts).1 = Except.error e →
      monoStepErr env url opts monogram mopts e) := by
  refine ⟨?_, ?_, ?_, ?_⟩
  · intro b hb
    rcases logo_run_cases env url opts lp lopts with
      ⟨e, henc, hrun⟩ | ⟨qr, henc, hlp, hrun⟩ | ⟨qr, p, henc, hlp, hp, hrest⟩
    · rw [hrun] at hb; simp at hb
    · rw [hrun] at hb
      simp at hb
      exact ⟨qr, henc, Or.inl ⟨hlp, hb.symm⟩⟩
    · rcases hrest with ⟨e, hres, hrun⟩ | ⟨src, hres, hrest⟩
      · rw [hrun] at hb; simp at hb
      · rcases hrest with ⟨e, hrs, hrun⟩ | ⟨rs, hrs, hrest⟩
        · rw [hrun] at hb; simp at hb
        · rcases hrest with ⟨e, hcc, hrun⟩ | ⟨matte, hcc, hovc, htr⟩
          · rw [hrun] at hb; simp at hb
          · rcases hovc with ⟨e, hov, h1⟩ | ⟨fin, hov, h1⟩
            · rw [h1] at hb; simp at hb
            · rw [h1] at hb
              simp at hb
              subst hb
              exact ⟨qr, henc, Or.inr ⟨p, src, rs, matte, hlp, hp, hres, hrs, hcc, hov⟩⟩
  · intro e he
    rcases logo_run_cases env url opts lp lopts with
      ⟨e2, henc, hrun⟩ | ⟨qr, henc, hlp, hrun⟩ | ⟨qr, p, henc, hlp, hp, hrest⟩
    · rw [hrun] at he
      simp at he
      subst he
      exact Or.inl henc
    · rw [hrun] at he; simp at he
    · rcases hrest with ⟨e2, hres, hrun⟩ | ⟨src, hres, hrest⟩
      · rw [hrun] at he
        simp at he
        subst he
        exact Or.inr ⟨qr, p, henc, hlp, hp, Or.inl hres⟩
      · rcases hrest with ⟨e2, hrs, hrun⟩ | ⟨rs, hrs, hrest⟩
        · rw [hrun] at he
          simp at he
          subst he
          exact Or.inr ⟨qr, p, henc, hlp, hp, Or.inr ⟨src, hres, Or.inl hrs⟩⟩
        · rcases hrest with ⟨e2, hcc, hrun⟩ | ⟨matte, hcc, hovc, htr⟩
          · rw [hrun] at he
            simp at he
            subst he
            exact Or.inr ⟨qr, p, henc, hlp, hp,
              Or.inr ⟨src, hres, Or.inr ⟨rs, hrs, Or.inl hcc⟩⟩⟩
          · rcases hovc with ⟨e2, hov, h1⟩ | ⟨fin, hov, h1⟩
            · rw [h1] at he
              simp at he
              subst he
              exact Or.inr ⟨qr, p, henc, hlp, hp,
                Or.inr ⟨src, hres, Or.inr ⟨rs, hrs, Or.inr ⟨matte, hcc, hov⟩⟩⟩⟩
            · rw [h1] at he; simp at he
  · intro b hb
    rcases mono_run_cases env url opts monogram mopts with
      ⟨e, henc, hrun⟩ | ⟨qr, henc, hrest⟩
    · rw [hrun] at hb; simp at hb
    · rcases hrest with ⟨e, hra, hrun⟩ | ⟨mb, hra, hrest⟩
      · rw [hrun] at hb; simp at hb
      · rcases hrest with ⟨e, hov, hrun⟩ | ⟨fin, hov, hrun⟩
        · rw [hrun] at hb; simp at hb
        · rw [hrun] at hb
          simp at hb
          subst hb
          exact ⟨qr, mb, henc, hra, hov⟩
  · intro e he
    rcases mono_run_cases env url opts monogram mopts with
      ⟨e2, henc, hrun⟩ | ⟨qr, henc, hrest⟩
    · rw [hrun] at he
      simp at he
      subst he
      exact Or.inl henc
    · rcases hrest with ⟨e2, hra, hrun⟩ | ⟨mb, hra, hrest⟩
      · rw [hrun] at he
        simp at he
        subst he
        exact Or.inr ⟨qr, henc, Or.inl hra⟩
      · rcases hrest with ⟨e2, hov, hrun⟩ | ⟨fin, hov, hrun⟩
        · rw [hrun] at he
          simp at he
          subst he
          exact Or.inr ⟨qr, henc, Or.inr ⟨mb, hra, hov⟩⟩
        · rw [hrun] at he; simp at he

/-- Witness for C8 at concrete inputs: a fully successful logo run and
monogram run, a logo run failing at source resolution, and a monogram run
failing at encoding. -/
theorem c8_errors_propagate_witness :
    logoStepsOk env0 ("u") qrOptsEmpty (some ("logo.png")) coRedBg ([5]) ∧
    logoStepErr envFail ("u") qrOptsEmpty (some ("missing.png")) coEmpty
      (Err.logoNotFoundError ("missing.png")) ∧
    monoStepsOk env0 ("u") qrOptsEmpty (some ("M&E")) coEmpty ([5]) ∧
    monoStepErr envEncFail ("u") qrOptsEmpty (some ("M&E")) coEmpty
      (Err.encodingError ("bad")) :=
  ⟨(c8_errors_propagate env0 ("u") qrOptsEmpty (some ("logo.png")) coRedBg
      (some ("M&E")) coEmpty).1 ([5]) rfl,
   (c8_errors_propagate envFail ("u") qrOptsEmpty (some ("missing.png")) coEmpty
      (some ("M&E")) coEmpty).2.1 (Err.logoNotFoundError ("missing.png")) rfl,
   (c8_errors_propagate env0 ("u") qrOptsEmpty (some ("logo.png")) coRedBg
      (some ("M&E")) coEmpty).2.2.1 ([5]) rfl,
   (c8_errors_propagate envEncFail ("u") qrOptsEmpty (some ("logo.png")) coEmpty
      (some ("M&E")) coEmpty).2.2.2 (Err.encodingError ("bad")) rfl⟩
